import Mathlib

/-!
Verification development for the Driver Sentiment Engine backend.

The definitions below are a shallow embedding of the TypeScript core:
the bag-of-words sentiment scorer (SentimentAnalysisService), the bounded
in-memory FIFO queue (InMemoryQueue), the rolling-average reputation
tracker (DriverService), the cooldown-gated alert service (AlertService),
and the feedback pipeline orchestrator (FeedbackProcessorService).

JavaScript numbers are modelled as exact rationals, JavaScript
Math.round as the half-up integer rounding it implements, Date values
as integer epoch milliseconds, thrown exceptions as Except, and the
document stores as explicit functional state threaded through each
operation.
-/

namespace DriverSentiment

/-! ## Numeric helpers

JavaScript Math.round rounds half toward positive infinity; the two
rounding helpers mirror Math.round(x * 10) / 10 and
Math.round(x * 100) / 100 from the source. -/

/-- JavaScript Math.round: rounds to the nearest integer, halves toward
positive infinity. -/
def jsRound (q : ℚ) : ℤ := ⌊q + 1/2⌋

/-- One-decimal rounding, Math.round(q * 10) / 10 in the source. -/
def round1 (q : ℚ) : ℚ := (jsRound (q * 10) : ℚ) / 10

/-- Two-decimal rounding, Math.round(q * 100) / 100 in the source. -/
def round2 (q : ℚ) : ℚ := (jsRound (q * 100) : ℚ) / 100

/-! ## Sentiment engine (SentimentAnalysisService)

Embedded from the current service variant: the one whose analyze method
takes the optional user rating, whose label type is the three-valued
union, and which the feedback processor actually calls. -/

/-- The positive lexicon, copied verbatim from the service constructor. -/
def positiveWords : List String :=
  ["good", "great", "excellent", "amazing", "wonderful", "fantastic",
   "awesome", "outstanding", "perfect", "superb", "brilliant",
   "safe", "smooth", "clean", "friendly", "polite", "punctual",
   "comfortable", "helpful", "professional", "courteous", "pleasant",
   "careful", "fast", "efficient", "reliable", "respectful",
   "kind", "nice", "calm", "gentle", "skilled",
   "loved", "enjoyed", "happy", "satisfied", "impressed",
   "recommend", "best", "thank", "thanks", "appreciate"]

/-- The negative lexicon, copied verbatim from the service constructor. -/
def negativeWords : List String :=
  ["bad", "terrible", "horrible", "awful", "worst", "poor",
   "dreadful", "disappointing", "unacceptable", "pathetic",
   "rude", "dangerous", "reckless", "dirty", "late", "slow",
   "aggressive", "unsafe", "careless", "rough", "unprofessional",
   "rash", "speeding", "honking", "yelling", "smoking",
   "hated", "angry", "upset", "scared", "frustrated",
   "complained", "never", "avoid", "worse", "nightmare",
   "overcharged", "refused", "lost", "wrong", "broke"]

/-- A lowercase ASCII letter, the character class [a-z] of the strip
regex. -/
def isLowerAlpha (c : Char) : Bool :=
  97 ≤ c.toNat && c.toNat ≤ 122

/-- The JavaScript regex whitespace class backslash-s. -/
def jsWhitespace (c : Char) : Bool :=
  let n := c.toNat
  n = 9 || n = 10 || n = 11 || n = 12 || n = 13 || n = 32 ||
  n = 0xa0 || n = 0x1680 || (0x2000 ≤ n && n ≤ 0x200a) ||
  n = 0x2028 || n = 0x2029 || n = 0x202f || n = 0x205f || n = 0x3000 ||
  n = 0xfeff

/-- Splits a character list into the maximal runs separated by
whitespace, the effect of split on the regex backslash-s-plus. -/
def splitAux : List Char → List Char → List String
  | [], acc => if acc.isEmpty then [] else [String.mk acc.reverse]
  | c :: cs, acc =>
    if jsWhitespace c then
      if acc.isEmpty then splitAux cs []
      else String.mk acc.reverse :: splitAux cs []
    else splitAux cs (c :: acc)

/-- SentimentAnalysisService.tokenize: lowercase, strip every character
outside [a-z] and whitespace, split on whitespace, drop tokens of length
at most one. -/
def tokenize (text : String) : List String :=
  let lowered := text.toList.map Char.toLower
  let stripped := lowered.filter (fun c => isLowerAlpha c || jsWhitespace c)
  (splitAux stripped []).filter (fun w => w.length > 1)

/-- The result record returned by analyze. -/
structure SentimentResult where
  score : ℚ
  label : String
  matchedWordCount : ℕ
  matchedWords : List String
deriving DecidableEq, Repr

/-- One iteration of the word-matching loop in analyze: the positive set
is consulted first, so a token in both lexicons counts as positive. -/
def scanStep (acc : ℕ × ℕ × List String) (word : String) : ℕ × ℕ × List String :=
  if positiveWords.contains word then
    (acc.1 + 1, acc.2.1, acc.2.2 ++ ["+" ++ word])
  else if negativeWords.contains word then
    (acc.1, acc.2.1 + 1, acc.2.2 ++ ["-" ++ word])
  else acc

/-- The word-matching loop of analyze: positive count, negative count,
and the tagged matched-word list, in scan order. -/
def scanWords (words : List String) : ℕ × ℕ × List String :=
  words.foldl scanStep (0, 0, [])

/-- SentimentAnalysisService.calculateScore of the current variant.
Returns 3 when no sentiment word matched; otherwise zeroes the positive
count and halves the negative count when no positive word matched,
forms the weighted quotient (2p - 3n) / (p + n) with the denominator
taken before the halving, maps it through ((q + 1) / 2) * 4 + 1, and
rounds to one decimal. The third parameter is unused, as in the source
signature. -/
def calculateScore (positiveCount negativeCount totalWords : ℕ) : ℚ :=
  let sentimentWordCount : ℚ := (positiveCount : ℚ) + (negativeCount : ℚ)
  if sentimentWordCount = 0 then 3
  else
    let p : ℚ := if (positiveCount : ℚ) ≤ 0 then 0 else (positiveCount : ℚ)
    let n : ℚ := if (positiveCount : ℚ) ≤ 0 then (negativeCount : ℚ) / 2 else (negativeCount : ℚ)
    let q := (p * 2 - n * 3) / sentimentWordCount
    let rawScore := ((q + 1) / 2) * 4 + 1
    round1 rawScore

/-- SentimentAnalysisService.scoreToLabel of the current variant: the
three-bucket labelling. -/
def scoreToLabel (score : ℚ) : String :=
  if score ≥ 7/2 then "positive"
  else if score ≥ 5/2 then "neutral"
  else "negative"

/-- SentimentAnalysisService.analyze: tokenize, count lexicon matches,
compute the textual score, blend an in-range explicit rating 50/50 with
one-decimal rounding, and label the final score. -/
def analyze (text : String) (userRating : Option ℚ) : SentimentResult :=
  let words := tokenize text
  let counts := scanWords words
  let positiveCount := counts.1
  let negativeCount := counts.2.1
  let matched := counts.2.2
  let nlpScore := calculateScore positiveCount negativeCount words.length
  let finalScore :=
    match userRating with
    | some r => if 1 ≤ r ∧ r ≤ 5 then round1 ((nlpScore + r) / 2) else nlpScore
    | none => nlpScore
  { score := finalScore
    label := scoreToLabel finalScore
    matchedWordCount := positiveCount + negativeCount
    matchedWords := matched }

/-- The raw textual score of a text: the calculateScore value analyze
computes before any rating blend. A projection of analyze, for stating
the blend claims. -/
def rawTextScore (text : String) : ℚ :=
  let words := tokenize text
  let counts := scanWords words
  calculateScore counts.1 counts.2.1 words.length

/-- The raw-score formula as the specification states it: neutral 3 with
no matches, otherwise the symmetric quotient (p - n) / (p + n) mapped
linearly onto [1, 5] and rounded to one decimal. Stated from the spec
wording (and the in-code comments and README), to compare with
calculateScore. -/
def specRawScore (positiveCount negativeCount : ℕ) : ℚ :=
  if positiveCount + negativeCount = 0 then 3
  else
    round1 ((((((positiveCount : ℚ) - (negativeCount : ℚ)) /
      ((positiveCount : ℚ) + (negativeCount : ℚ))) + 1) / 2) * 4 + 1)

/-! ## Bounded FIFO queue (InMemoryQueue)

The array-backed queue; push becomes appending at the tail, shift
becomes taking the head, the capacity throw becomes an Except.error. -/

/-- The queue state: backing item list, instance name, and maximum
capacity. -/
structure InMemoryQueue (T : Type) where
  items : List T
  queueName : String
  maxCapacity : ℕ

/-- The constructor with its default capacity of 10000. -/
def mkQueue (T : Type) (queueName : String) : InMemoryQueue T :=
  { items := [], queueName := queueName, maxCapacity := 10000 }

/-- The message of the capacity throw in enqueue. -/
def capacityErrorMsg (queueName : String) (maxCapacity : ℕ) : String :=
  "Queue \x27" ++ queueName ++ "\x27 has reached maximum capacity (" ++
    toString maxCapacity ++ ")."

/-- InMemoryQueue.enqueue: reject when the current size has reached the
maximum, otherwise push at the tail and return the new length as a
one-indexed position together with the new queue state. -/
def enqueue {T : Type} (q : InMemoryQueue T) (item : T) :
    Except String (ℕ × InMemoryQueue T) :=
  if q.items.length ≥ q.maxCapacity then
    .error (capacityErrorMsg q.queueName q.maxCapacity)
  else
    let items := q.items ++ [item]
    .ok (items.length, { q with items := items })

/-- InMemoryQueue.dequeue: none on the empty queue, otherwise the head
and the queue without it. -/
def dequeue {T : Type} (q : InMemoryQueue T) : Option T × InMemoryQueue T :=
  match q.items with
  | [] => (none, q)
  | x :: rest => (some x, { q with items := rest })

/-- InMemoryQueue.peek: the head without removal. -/
def InMemoryQueue.peekFront {T : Type} (q : InMemoryQueue T) : Option T :=
  match q.items with
  | [] => none
  | x :: _ => some x

/-- InMemoryQueue.size. -/
def InMemoryQueue.size {T : Type} (q : InMemoryQueue T) : ℕ := q.items.length

/-- InMemoryQueue.isEmpty: length equals zero. -/
def InMemoryQueue.isEmpty {T : Type} (q : InMemoryQueue T) : Bool :=
  q.items.length = 0

/-! ## Reputation tracker (DriverService) -/

/-- The Driver document: running sum, running count, derived average and
risk tier, as in the Mongoose model. -/
structure DriverDocument where
  driverId : String
  name : String
  totalScore : ℚ
  totalFeedback : ℕ
  averageScore : ℚ
  riskLevel : String
deriving DecidableEq, Repr

/-- The driver collection, keyed by driverId. -/
def DriverStore : Type := String → Option DriverDocument

/-- DriverService.classifyRiskLevel: HIGH below 2.5, MEDIUM below 3.5,
LOW otherwise. -/
def classifyRiskLevel (averageScore : ℚ) : String :=
  if averageScore < 5/2 then "HIGH"
  else if averageScore < 7/2 then "MEDIUM"
  else "LOW"

/-- The message of the throw in updateDriverScore when the driver is
missing. -/
def driverNotFoundMsg (driverId : String) : String :=
  "Driver \x27" ++ driverId ++ "\x27 not found. Cannot update score."

/-- DriverService.updateDriverScore: fetch the aggregate, throw when it
is missing, otherwise add the new score to the sum, bump the count,
round the new average to two decimals, reclassify the risk tier, and
persist the updated document. -/
def updateDriverScore (store : DriverStore) (driverId : String)
    (newSentimentScore : ℚ) : Except String (DriverDocument × DriverStore) :=
  match store driverId with
  | none => .error (driverNotFoundMsg driverId)
  | some driver =>
    let newTotalScore := driver.totalScore + newSentimentScore
    let newTotalFeedback := driver.totalFeedback + 1
    let newAverageScore := round2 (newTotalScore / (newTotalFeedback : ℚ))
    let newRiskLevel := classifyRiskLevel newAverageScore
    let updated : DriverDocument :=
      { driver with
        totalScore := newTotalScore
        totalFeedback := newTotalFeedback
        averageScore := newAverageScore
        riskLevel := newRiskLevel }
    .ok (updated, fun id => if id = driverId then some updated else store id)

/-- DriverService.findOrCreateDriver: return the existing aggregate, or
create one with the model defaults (zero sum, zero count, zero average,
LOW tier). -/
def findOrCreateDriver (store : DriverStore) (driverId name : String) :
    DriverDocument × DriverStore :=
  match store driverId with
  | some existing => (existing, store)
  | none =>
    let created : DriverDocument :=
      { driverId := driverId, name := name, totalScore := 0,
        totalFeedback := 0, averageScore := 0, riskLevel := "LOW" }
    (created, fun id => if id = driverId then some created else store id)

/-! ## Alert gate (AlertService)

Timestamps are integer epoch milliseconds; the alert store is the list
of persisted alerts, newest first, so that the find-latest query of the
alert repository is the first match. -/

/-- The Alert document. createdAt is the creation time in epoch
milliseconds. -/
structure AlertRecord where
  driverId : String
  driverName : String
  message : String
  currentScore : ℚ
  threshold : ℚ
  createdAt : ℤ
deriving DecidableEq, Repr

/-- The alert threshold and cooldown configuration taken by the
AlertService constructor. -/
structure AlertConfig where
  alertThreshold : ℚ
  cooldownSeconds : ℚ
deriving DecidableEq, Repr

/-- The constructor defaults: threshold 2.5, cooldown 3600 seconds. -/
def defaultAlertConfig : AlertConfig :=
  { alertThreshold := 5/2, cooldownSeconds := 3600 }

/-- AlertRepository.findLatestByDriverId: the most recent alert of the
driver, the first match under the newest-first ordering of the store. -/
def findLatestByDriverId (alerts : List AlertRecord) (driverId : String) :
    Option AlertRecord :=
  alerts.find? (fun a => a.driverId = driverId)

/-- AlertService.isDriverOnAlertCooldown: no previous alert means no
cooldown; otherwise the elapsed seconds since the last alert are
compared with the cooldown. -/
def isDriverOnAlertCooldown (cfg : AlertConfig) (alerts : List AlertRecord)
    (now : ℤ) (driverId : String) : Bool :=
  match findLatestByDriverId alerts driverId with
  | none => false
  | some lastAlert =>
    decide (((now : ℚ) - (lastAlert.createdAt : ℚ)) / 1000 < cfg.cooldownSeconds)

/-- The alert message template of AlertService.checkAndAlert. -/
def alertMessage (driverName driverId : String)
    (currentScore alertThreshold : ℚ) : String :=
  "Driver \x27" ++ driverName ++ "\x27 (" ++ driverId ++
    ") has a sentiment score of " ++ toString currentScore ++
    ", which is below the threshold of " ++ toString alertThreshold ++
    ". Immediate review recommended."

/-- AlertService.checkAndAlert: no alert at or above the threshold, no
alert within the cooldown window, otherwise create and persist an alert
naming the driver (or the Unknown Driver fallback when the driver
record is missing). Returns the created alert, if any, and the new
alert store. -/
def checkAndAlert (cfg : AlertConfig) (drivers : DriverStore)
    (alerts : List AlertRecord) (now : ℤ) (driverId : String)
    (currentScore : ℚ) : Option AlertRecord × List AlertRecord :=
  if currentScore ≥ cfg.alertThreshold then (none, alerts)
  else if isDriverOnAlertCooldown cfg alerts now driverId then (none, alerts)
  else
    let driverName :=
      match drivers driverId with
      | some d => d.name
      | none => "Unknown Driver"
    let alert : AlertRecord :=
      { driverId := driverId
        driverName := driverName
        message := alertMessage driverName driverId currentScore cfg.alertThreshold
        currentScore := currentScore
        threshold := cfg.alertThreshold
        createdAt := now }
    (some alert, alert :: alerts)

/-! ## Feedback pipeline orchestrator (FeedbackProcessorService)

The storage collaborators are Mongoose repositories whose database may
fail at runtime; those external failures are injected through a fault
model, one oracle per pipeline step, so that the error boundary of
processNextItem is exercised over every possible failure pattern. -/

/-- The submit-feedback request body (request.types.ts). -/
structure SubmitFeedbackRequest where
  driverId : String
  driverName : String
  feedbackText : String
  rating : ℚ
  userName : String
  feedbackDate : String
  driverFeedbackText : Option String
  driverRating : Option ℚ
deriving DecidableEq, Repr

/-- The item shape held by the feedback queue. -/
structure QueuedFeedbackItem where
  request : SubmitFeedbackRequest
  sentimentResult : SentimentResult
  enqueuedAt : ℤ
deriving DecidableEq, Repr

/-- The persisted Feedback document; the Mongo object id is modelled as
a counter value. -/
structure FeedbackRecord where
  recordId : ℕ
  driverId : String
  feedbackText : String
  userName : String
  feedbackDate : String
  sentimentScore : ℚ
  sentimentLabel : String
  matchedWords : List String
  processed : Bool
deriving DecidableEq, Repr

/-- The persistent state behind the three repositories, plus the id
counter for new feedback records. -/
structure PipelineState where
  drivers : DriverStore
  feedbacks : List FeedbackRecord
  alerts : List AlertRecord
  nextRecordId : ℕ

/-- Injected transient storage failures: one oracle per pipeline step,
deciding whether the corresponding repository call throws. -/
structure FaultModel where
  failCreateFeedback : QueuedFeedbackItem → Bool
  failUpdateScore : String → Bool
  failCheckAlert : String → Bool
  failMarkProcessed : ℕ → Bool

/-- The all-healthy fault model: no storage call fails. -/
def noFaults : FaultModel :=
  { failCreateFeedback := fun _ => false
    failUpdateScore := fun _ => false
    failCheckAlert := fun _ => false
    failMarkProcessed := fun _ => false }

/-- Step 1 of processNextItem: persist the feedback record with
processed set to false, carrying over the sentiment fields of the
queued item. -/
def saveFeedbackStep (fm : FaultModel) (item : QueuedFeedbackItem)
    (ps : PipelineState) : Except String (ℕ × PipelineState) :=
  if fm.failCreateFeedback item then .error "storage failure: feedback create"
  else
    let record : FeedbackRecord :=
      { recordId := ps.nextRecordId
        driverId := item.request.driverId
        feedbackText := item.request.feedbackText
        userName := item.request.userName
        feedbackDate := item.request.feedbackDate
        sentimentScore := item.sentimentResult.score
        sentimentLabel := item.sentimentResult.label
        matchedWords := item.sentimentResult.matchedWords
        processed := false }
    .ok (ps.nextRecordId,
      { ps with feedbacks := ps.feedbacks ++ [record],
                nextRecordId := ps.nextRecordId + 1 })

/-- The driver-directed-signal test of step 2: an explicit driver rating
is present, or the driver feedback text is present, non-empty, and not
all whitespace. -/
def hasDriverFeedback (request : SubmitFeedbackRequest) : Bool :=
  request.driverRating.isSome ||
    (match request.driverFeedbackText with
     | some t => t ≠ "" && t.trim.length > 0
     | none => false)

/-- Step 2, scoring branch: the rolling-average update, behind its fault
oracle; a missing driver surfaces as the updateDriverScore throw. -/
def updateScoreStep (fm : FaultModel) (driverId : String) (score : ℚ)
    (ps : PipelineState) : Except String (DriverDocument × PipelineState) :=
  if fm.failUpdateScore driverId then .error "storage failure: driver update"
  else
    match updateDriverScore ps.drivers driverId score with
    | .error e => .error e
    | .ok (d, ds) => .ok (d, { ps with drivers := ds })

/-- Step 2, non-scoring branch: fetch the driver, creating it when
missing, without touching its score. -/
def ensureDriverStep (request : SubmitFeedbackRequest) (ps : PipelineState) :
    DriverDocument × PipelineState :=
  match ps.drivers request.driverId with
  | some d => (d, ps)
  | none =>
    let fc := findOrCreateDriver ps.drivers request.driverId request.driverName
    (fc.1, { ps with drivers := fc.2 })

/-- Step 3: the alert gate on the post-update average, behind its fault
oracle. -/
def checkAlertStep (fm : FaultModel) (cfg : AlertConfig) (driverId : String)
    (averageScore : ℚ) (now : ℤ) (ps : PipelineState) :
    Except String PipelineState :=
  if fm.failCheckAlert driverId then .error "storage failure: alert check"
  else
    let r := checkAndAlert cfg ps.drivers ps.alerts now driverId averageScore
    .ok { ps with alerts := r.2 }

/-- Step 4: flip the processed flag of the saved record, behind its
fault oracle. -/
def markProcessedStep (fm : FaultModel) (recordId : ℕ) (ps : PipelineState) :
    Except String PipelineState :=
  if fm.failMarkProcessed recordId then .error "storage failure: mark processed"
  else
    .ok { ps with feedbacks := ps.feedbacks.map (fun r =>
      if r.recordId = recordId then { r with processed := true } else r) }

/-- The body of the try block of processNextItem: the four steps run in
order; a throw at any step stops there, and the effects of the earlier
steps remain committed, exactly as awaited database writes do. The
returned flag tells whether all four steps completed. -/
def runQueuedItem (fm : FaultModel) (cfg : AlertConfig) (now : ℤ)
    (item : QueuedFeedbackItem) (ps : PipelineState) : PipelineState × Bool :=
  match saveFeedbackStep fm item ps with
  | .error _ => (ps, false)
  | .ok (recordId, ps1) =>
    let step2 : Except String (DriverDocument × PipelineState) :=
      if hasDriverFeedback item.request then
        updateScoreStep fm item.request.driverId item.sentimentResult.score ps1
      else
        .ok (ensureDriverStep item.request ps1)
    match step2 with
    | .error _ => (ps1, false)
    | .ok (updatedDriver, ps2) =>
      match checkAlertStep fm cfg item.request.driverId
          updatedDriver.averageScore now ps2 with
      | .error _ => (ps2, false)
      | .ok ps3 =>
        match markProcessedStep fm recordId ps3 with
        | .error _ => (ps3, false)
        | .ok ps4 => (ps4, true)

/-- The orchestrator state: the queue it owns, the storage state, the
processed counter, and the current clock in epoch milliseconds. -/
structure OrchState where
  queue : InMemoryQueue QueuedFeedbackItem
  pipeline : PipelineState
  processedCount : ℕ
  now : ℤ

/-- FeedbackProcessorService.processNextItem: return unchanged on an
empty queue; otherwise dequeue one item and run the four steps inside
the catch-all error boundary, so the call always returns normally, the
dequeued item is never re-enqueued, and the processed counter moves
only when all four steps succeeded. -/
def processNextItem (fm : FaultModel) (cfg : AlertConfig) (st : OrchState) :
    OrchState :=
  if st.queue.isEmpty then st
  else
    match dequeue st.queue with
    | (none, q2) => { st with queue := q2 }
    | (some item, q2) =>
      let r := runQueuedItem fm cfg st.now item st.pipeline
      { st with
        queue := q2
        pipeline := r.1
        processedCount :=
          if r.2 then st.processedCount + 1 else st.processedCount }

/-- FeedbackProcessorService.submitFeedback: analyze strictly the driver
feedback text (empty when absent) together with the driver rating,
ensure the driver record exists, enqueue the enriched item, and return
the sentiment result with the queue position; a full queue propagates
the capacity error to the caller. -/
def submitFeedback (st : OrchState) (request : SubmitFeedbackRequest) :
    Except String (SentimentResult × ℕ × OrchState) :=
  let textToAnalyze := request.driverFeedbackText.getD ""
  let sentimentResult := analyze textToAnalyze request.driverRating
  let fc := findOrCreateDriver st.pipeline.drivers request.driverId request.driverName
  let ps := { st.pipeline with drivers := fc.2 }
  match enqueue st.queue
      { request := request, sentimentResult := sentimentResult,
        enqueuedAt := st.now } with
  | .error e => .error e
  | .ok (queuePosition, q2) =>
    .ok (sentimentResult, queuePosition,
      { st with queue := q2, pipeline := ps })

/-! ## Claim theorems -/

/-- Claim C1, code-bug evidence. The claim (with the in-code comments,
the interface documentation and the README) states the raw textual
score for matched words is round1 of the linear image of
(p - n) / (p + n) and always lies in [1, 5]. The shipped calculateScore
instead weights the quotient as (2p - 3n) / (p + n) and halves the
negative count when no positive word matched: on the text
"rude driver" (one negative match, no positive match) it produces the
raw score 0, below the claimed lower bound 1, where the claimed formula
produces 1; on "excellent and punctual driver" (two positive matches)
it produces 7, above the claimed upper bound 5, where the claimed
formula produces 5. -/
theorem calculateScore_breaks_claimed_range :
    scanWords (tokenize "rude driver") = (0, 1, ["-rude"]) ∧
    rawTextScore "rude driver" = 0 ∧
    (analyze "rude driver" none).score = 0 ∧
    specRawScore 0 1 = 1 ∧
    ¬ (1 ≤ rawTextScore "rude driver") ∧
    scanWords (tokenize "excellent and punctual driver") =
      (2, 0, ["+excellent", "+punctual"]) ∧
    rawTextScore "excellent and punctual driver" = 7 ∧
    specRawScore 2 0 = 5 ∧
    ¬ (rawTextScore "excellent and punctual driver" ≤ 5) := by
  have h1 : scanWords (tokenize "rude driver") = (0, 1, ["-rude"]) := by decide
  have h2 : scanWords (tokenize "excellent and punctual driver") =
      (2, 0, ["+excellent", "+punctual"]) := by decide
  have hr1 : rawTextScore "rude driver" = 0 := by
    simp only [rawTextScore, h1]
    norm_num [calculateScore, round1, jsRound]
  have hr2 : rawTextScore "excellent and punctual driver" = 7 := by
    simp only [rawTextScore, h2]
    norm_num [calculateScore, round1, jsRound]
  have ha : (analyze "rude driver" none).score = 0 := by
    simp only [analyze, h1]
    norm_num [calculateScore, round1, jsRound]
  refine ⟨h1, hr1, ha, ?_, ?_, h2, hr2, ?_, ?_⟩
  · norm_num [specRawScore, round1, jsRound]
  · rw [hr1]; norm_num
  · norm_num [specRawScore, round1, jsRound]
  · rw [hr2]; norm_num

/-- Claim C4: below capacity, enqueue appends the item at the tail and
returns the new one-indexed count; at or above capacity it fails with
the capacity-exceeded error (the queue value it was given is not
modified); the constructor default capacity is 10000. -/
theorem enqueue_capacity_spec {T : Type} (q : InMemoryQueue T) (item : T) :
    (q.items.length < q.maxCapacity →
      enqueue q item =
        .ok (q.items.length + 1, { q with items := q.items ++ [item] })) ∧
    (q.items.length ≥ q.maxCapacity →
      enqueue q item = .error (capacityErrorMsg q.queueName q.maxCapacity)) ∧
    (∀ name : String, (mkQueue T name).maxCapacity = 10000) := by
  refine ⟨fun h => ?_, fun h => ?_, fun _ => rfl⟩
  · simp [enqueue, Nat.not_le.mpr h]
  · simp [enqueue, h]

/-- Claim C4 witness: an enqueue on the fresh default queue and an
enqueue on a full queue of capacity one. -/
theorem enqueue_capacity_spec_witness :
    enqueue (mkQueue ℕ "feedback") 7 =
      .ok (1, { mkQueue ℕ "feedback" with items := [7] }) ∧
    enqueue (⟨[0], "tiny", 1⟩ : InMemoryQueue ℕ) 7 =
      .error (capacityErrorMsg "tiny" 1) :=
  ⟨(enqueue_capacity_spec (mkQueue ℕ "feedback") 7).1 (by decide),
   (enqueue_capacity_spec (⟨[0], "tiny", 1⟩ : InMemoryQueue ℕ) 7).2.1 (by decide)⟩

/-- Claim C5: the queue is strict FIFO. Dequeue always returns the head
of the backing list and leaves its tail, so no reordering, priority, or
deduplication is possible; enqueuing a, b, c in that order and
dequeuing three times returns a, b, c, and a dequeue on the emptied
queue returns the explicit empty signal none rather than an error. -/
theorem queue_fifo_spec {T : Type} (a b c : T) (name : String) :
    (∀ q : InMemoryQueue T, (dequeue q).1 = q.items.head?) ∧
    (∀ q : InMemoryQueue T, (dequeue q).2.items = q.items.tail) ∧
    enqueue (mkQueue T name) a = .ok (1, ⟨[a], name, 10000⟩) ∧
    enqueue (⟨[a], name, 10000⟩ : InMemoryQueue T) b =
      .ok (2, ⟨[a, b], name, 10000⟩) ∧
    enqueue (⟨[a, b], name, 10000⟩ : InMemoryQueue T) c =
      .ok (3, ⟨[a, b, c], name, 10000⟩) ∧
    dequeue (⟨[a, b, c], name, 10000⟩ : InMemoryQueue T) =
      (some a, ⟨[b, c], name, 10000⟩) ∧
    dequeue (⟨[b, c], name, 10000⟩ : InMemoryQueue T) =
      (some b, ⟨[c], name, 10000⟩) ∧
    dequeue (⟨[c], name, 10000⟩ : InMemoryQueue T) =
      (some c, ⟨[], name, 10000⟩) ∧
    dequeue (⟨[], name, 10000⟩ : InMemoryQueue T) =
      (none, ⟨[], name, 10000⟩) := by
  refine ⟨fun q => ?_, fun q => ?_, rfl, rfl, rfl, rfl, rfl, rfl, rfl⟩
  · obtain ⟨items, n, cap⟩ := q
    cases items <;> rfl
  · obtain ⟨items, n, cap⟩ := q
    cases items <;> rfl

/-- Claim C7: the label of every analysis result is derived from the
final blended score by the three-bucket scheme: positive at or above
3.5, neutral at or above 2.5 and below 3.5, negative below 2.5. -/
theorem scoreToLabel_bucket_spec (text : String) (r : Option ℚ) :
    (analyze text r).label = scoreToLabel (analyze text r).score ∧
    (∀ s : ℚ,
      (7/2 ≤ s → scoreToLabel s = "positive") ∧
      (5/2 ≤ s → s < 7/2 → scoreToLabel s = "neutral") ∧
      (s < 5/2 → scoreToLabel s = "negative")) := by
  refine ⟨rfl, fun s => ⟨fun h => ?_, fun h1 h2 => ?_, fun h => ?_⟩⟩
  · rw [scoreToLabel, if_pos h]
  · rw [scoreToLabel, if_neg (not_le.mpr h2), if_pos h1]
  · rw [scoreToLabel, if_neg (not_le.mpr (h.trans (by norm_num))),
      if_neg (not_le.mpr h)]

/-- Claim C7 witness: the three buckets at the concrete scores 4, 3
and 2, and the label of a concrete analysis. -/
theorem scoreToLabel_bucket_spec_witness :
    scoreToLabel 4 = "positive" ∧ scoreToLabel 3 = "neutral" ∧
    scoreToLabel 2 = "negative" ∧
    (analyze "great" (some 1)).label =
      scoreToLabel (analyze "great" (some 1)).score :=
  ⟨((scoreToLabel_bucket_spec "great" (some 1)).2 4).1 (by norm_num),
   ((scoreToLabel_bucket_spec "great" (some 1)).2 3).2.1 (by norm_num) (by norm_num),
   ((scoreToLabel_bucket_spec "great" (some 1)).2 2).2.2 (by norm_num),
   (scoreToLabel_bucket_spec "great" (some 1)).1⟩

/-- Claim C2: updating a driver whose aggregate exists persists the new
running sum, the bumped count, the two-decimal-rounded new average, and
the risk tier derived from that average, with HIGH strictly below 2.5,
MEDIUM from 2.5 up to but excluding 3.5, and LOW from 3.5 upward; the
update fails when no aggregate exists for the driverId. -/
theorem updateDriverScore_spec (store : DriverStore) (driverId : String)
    (agg : DriverDocument) (x : ℚ) (h : store driverId = some agg) :
    (let avg := round2 ((agg.totalScore + x) / ((agg.totalFeedback + 1 : ℕ) : ℚ));
     let upd : DriverDocument :=
       { agg with
         totalScore := agg.totalScore + x
         totalFeedback := agg.totalFeedback + 1
         averageScore := avg
         riskLevel := classifyRiskLevel avg };
     updateDriverScore store driverId x =
       .ok (upd, fun id => if id = driverId then some upd else store id)) ∧
    (∀ a : ℚ,
      (a < 5/2 → classifyRiskLevel a = "HIGH") ∧
      (5/2 ≤ a → a < 7/2 → classifyRiskLevel a = "MEDIUM") ∧
      (7/2 ≤ a → classifyRiskLevel a = "LOW")) ∧
    classifyRiskLevel (5/2) = "MEDIUM" ∧
    classifyRiskLevel (7/2) = "LOW" ∧
    (∀ (s : DriverStore) (d : String) (y : ℚ), s d = none →
      updateDriverScore s d y = .error (driverNotFoundMsg d)) := by
  refine ⟨?_, fun a => ⟨fun ha => ?_, fun ha1 ha2 => ?_, fun ha => ?_⟩,
    ?_, ?_, fun s d y hs => ?_⟩
  · simp only [updateDriverScore, h]
  · rw [classifyRiskLevel, if_pos ha]
  · rw [classifyRiskLevel, if_neg (not_lt.mpr ha1), if_pos ha2]
  · rw [classifyRiskLevel, if_neg (not_lt.mpr (le_trans (by norm_num) ha)),
      if_neg (not_lt.mpr ha)]
  · rw [classifyRiskLevel, if_neg (by norm_num), if_pos (by norm_num)]
  · rw [classifyRiskLevel, if_neg (by norm_num), if_neg (by norm_num)]
  · simp only [updateDriverScore, hs]

/-- A sample driver aggregate for the claim C2 witness. -/
def sampleDriver : DriverDocument :=
  { driverId := "d1", name := "Asha", totalScore := 7, totalFeedback := 2,
    averageScore := 7/2, riskLevel := "LOW" }

/-- A sample driver store holding only the sample aggregate. -/
def sampleDriverStore : DriverStore :=
  fun id => if id = "d1" then some sampleDriver else none

/-- Claim C2 witness: the update applied to the sample aggregate at the
concrete new score 4, plus the failure on a store with no aggregate. -/
theorem updateDriverScore_spec_witness :
    (let avg := round2 ((sampleDriver.totalScore + 4) /
       ((sampleDriver.totalFeedback + 1 : ℕ) : ℚ));
     let upd : DriverDocument :=
       { sampleDriver with
         totalScore := sampleDriver.totalScore + 4
         totalFeedback := sampleDriver.totalFeedback + 1
         averageScore := avg
         riskLevel := classifyRiskLevel avg };
     updateDriverScore sampleDriverStore "d1" 4 =
       .ok (upd, fun id => if id = "d1" then some upd else sampleDriverStore id)) ∧
    updateDriverScore (fun _ => none) "ghost" 4 =
      .error (driverNotFoundMsg "ghost") :=
  ⟨(updateDriverScore_spec sampleDriverStore "d1" sampleDriver 4 rfl).1,
   (updateDriverScore_spec sampleDriverStore "d1" sampleDriver 4 rfl).2.2.2.2
     (fun _ => none) "ghost" 4 rfl⟩

/-- Claim C3: the alert gate returns none at or above the threshold;
it returns none below the threshold when the most recent alert of the
driver is younger than the cooldown; otherwise it creates, persists and
returns an alert whose message embeds the driver name, the current
score and the threshold; the constructor defaults are threshold 2.5 and
cooldown 3600 seconds. -/
theorem checkAndAlert_gate_spec (cfg : AlertConfig) (drivers : DriverStore)
    (alerts : List AlertRecord) (now : ℤ) (driverId : String)
    (currentScore : ℚ) :
    (cfg.alertThreshold ≤ currentScore →
      checkAndAlert cfg drivers alerts now driverId currentScore =
        (none, alerts)) ∧
    (∀ lastAlert, currentScore < cfg.alertThreshold →
      findLatestByDriverId alerts driverId = some lastAlert →
      ((now : ℚ) - (lastAlert.createdAt : ℚ)) / 1000 < cfg.cooldownSeconds →
      checkAndAlert cfg drivers alerts now driverId currentScore =
        (none, alerts)) ∧
    (currentScore < cfg.alertThreshold →
      isDriverOnAlertCooldown cfg alerts now driverId = false →
      (let dname :=
         match drivers driverId with
         | some d => d.name
         | none => "Unknown Driver";
       let alert : AlertRecord :=
         { driverId := driverId
           driverName := dname
           message := alertMessage dname driverId currentScore cfg.alertThreshold
           currentScore := currentScore
           threshold := cfg.alertThreshold
           createdAt := now };
       checkAndAlert cfg drivers alerts now driverId currentScore =
         (some alert, alert :: alerts))) ∧
    defaultAlertConfig.alertThreshold = 5/2 ∧
    defaultAlertConfig.cooldownSeconds = 3600 := by
  refine ⟨fun h => ?_, fun lastAlert h hla hcd => ?_, fun h hcd => ?_, rfl, rfl⟩
  · rw [checkAndAlert, if_pos h]
  · have hc : isDriverOnAlertCooldown cfg alerts now driverId = true := by
      rw [isDriverOnAlertCooldown, hla]
      exact decide_eq_true hcd
    rw [checkAndAlert, if_neg (not_le.mpr h), if_pos (by rw [hc])]
  · rw [checkAndAlert, if_neg (not_le.mpr h), if_neg (by rw [hcd]; exact Bool.false_ne_true)]

/-- Claim C3 witness: the gate at the default configuration for a score
at the threshold (no alert), a fresh low score (alert created), and a
repeated low score inside the cooldown window (suppressed). -/
theorem checkAndAlert_gate_spec_witness :
    checkAndAlert defaultAlertConfig sampleDriverStore [] 0 "d1" (5/2) =
      (none, []) ∧
    (let dname :=
       match sampleDriverStore "d1" with
       | some d => d.name
       | none => "Unknown Driver";
     let alert : AlertRecord :=
       { driverId := "d1"
         driverName := dname
         message := alertMessage dname "d1" 2 defaultAlertConfig.alertThreshold
         currentScore := 2
         threshold := defaultAlertConfig.alertThreshold
         createdAt := 0 };
     checkAndAlert defaultAlertConfig sampleDriverStore [] 0 "d1" 2 =
       (some alert, [alert])) ∧
    (∀ priorAlert : AlertRecord, priorAlert.driverId = "d1" →
      priorAlert.createdAt = 0 →
      checkAndAlert defaultAlertConfig sampleDriverStore [priorAlert]
        10000 "d1" 2 = (none, [priorAlert])) := by
  refine ⟨?_, ?_, fun priorAlert hid hts => ?_⟩
  · exact (checkAndAlert_gate_spec defaultAlertConfig sampleDriverStore []
      0 "d1" (5/2)).1 (by norm_num [defaultAlertConfig])
  · exact (checkAndAlert_gate_spec defaultAlertConfig sampleDriverStore []
      0 "d1" 2).2.2.1 (by norm_num [defaultAlertConfig]) rfl
  · exact (checkAndAlert_gate_spec defaultAlertConfig sampleDriverStore
      [priorAlert] 10000 "d1" 2).2.1 priorAlert
      (by norm_num [defaultAlertConfig])
      (by rw [findLatestByDriverId, List.find?]; simp [hid])
      (by rw [hts]; norm_num [defaultAlertConfig])

/-- Claim C6: with no rating the final score is the raw textual score;
with a rating inside [1, 5] it is the one-decimal rounding of the mean
of the raw score and the rating; a rating outside [1, 5] is ignored and
never fails, the scorer being a total function. -/
theorem analyze_blend_spec (text : String) (r : ℚ) :
    ((analyze text none).score = rawTextScore text) ∧
    (1 ≤ r → r ≤ 5 →
      (analyze text (some r)).score = round1 ((rawTextScore text + r) / 2)) ∧
    (¬ (1 ≤ r ∧ r ≤ 5) →
      (analyze text (some r)).score = rawTextScore text) := by
  refine ⟨rfl, fun h1 h2 => ?_, fun h => ?_⟩
  · simp only [analyze, rawTextScore]
    rw [if_pos ⟨h1, h2⟩]
  · simp only [analyze, rawTextScore]
    rw [if_neg h]

/-- Claim C6 witness: the blend at the in-range rating 5 and the
pass-through at the out-of-range rating 7, on a concrete text. -/
theorem analyze_blend_spec_witness :
    (analyze "great ride" (some 5)).score =
      round1 ((rawTextScore "great ride" + 5) / 2) ∧
    (analyze "great ride" (some 7)).score = rawTextScore "great ride" ∧
    (analyze "great ride" none).score = rawTextScore "great ride" :=
  ⟨(analyze_blend_spec "great ride" 5).2.1 (by norm_num) (by norm_num),
   (analyze_blend_spec "great ride" 7).2.2 (by norm_num),
   (analyze_blend_spec "great ride" 7).1⟩

/-- Claim C10: a missing driver record never makes the alert gate fail:
below the threshold and off cooldown, the gate still creates, persists
and returns the alert, with the name snapshot Unknown Driver both in
the record and in its message. -/
theorem checkAndAlert_unknown_driver_spec (cfg : AlertConfig)
    (drivers : DriverStore) (alerts : List AlertRecord) (now : ℤ)
    (driverId : String) (currentScore : ℚ)
    (hmiss : drivers driverId = none)
    (hlow : currentScore < cfg.alertThreshold)
    (hcd : isDriverOnAlertCooldown cfg alerts now driverId = false) :
    checkAndAlert cfg drivers alerts now driverId currentScore =
      (some { driverId := driverId
              driverName := "Unknown Driver"
              message := alertMessage "Unknown Driver" driverId currentScore
                cfg.alertThreshold
              currentScore := currentScore
              threshold := cfg.alertThreshold
              createdAt := now },
       { driverId := driverId
         driverName := "Unknown Driver"
         message := alertMessage "Unknown Driver" driverId currentScore
           cfg.alertThreshold
         currentScore := currentScore
         threshold := cfg.alertThreshold
         createdAt := now } :: alerts) := by
  rw [checkAndAlert, if_neg (not_le.mpr hlow),
    if_neg (by rw [hcd]; exact Bool.false_ne_true)]
  simp only [hmiss]

/-- Claim C10 witness: the gate on an empty driver store at the default
configuration. -/
theorem checkAndAlert_unknown_driver_spec_witness :
    checkAndAlert defaultAlertConfig (fun _ => none) [] 0 "drv9" 2 =
      (some { driverId := "drv9"
              driverName := "Unknown Driver"
              message := alertMessage "Unknown Driver" "drv9" 2
                defaultAlertConfig.alertThreshold
              currentScore := 2
              threshold := defaultAlertConfig.alertThreshold
              createdAt := 0 },
       [{ driverId := "drv9"
          driverName := "Unknown Driver"
          message := alertMessage "Unknown Driver" "drv9" 2
            defaultAlertConfig.alertThreshold
          currentScore := 2
          threshold := defaultAlertConfig.alertThreshold
          createdAt := 0 }]) :=
  checkAndAlert_unknown_driver_spec defaultAlertConfig (fun _ => none) []
    0 "drv9" 2 rfl (by norm_num [defaultAlertConfig]) rfl

/-- Claim C9: the sentiment result of a submission is computed solely
from the driver feedback text (the empty string when absent) and the
driver rating; two submissions agreeing on those two fields, whatever
their general feedbackText or other fields, receive identical
SentimentResult values. -/
theorem submitFeedback_noninterference (st : OrchState)
    (r1 r2 : SubmitFeedbackRequest)
    (h1 : r1.driverFeedbackText = r2.driverFeedbackText)
    (h2 : r1.driverRating = r2.driverRating) :
    ((submitFeedback st r1).map (fun out => out.1) =
      (submitFeedback st r2).map (fun out => out.1)) ∧
    (∀ result pos st2, submitFeedback st r1 = .ok (result, pos, st2) →
      result = analyze (r1.driverFeedbackText.getD "") r1.driverRating) := by
  constructor
  · have hs : analyze (r1.driverFeedbackText.getD "") r1.driverRating =
        analyze (r2.driverFeedbackText.getD "") r2.driverRating := by
      rw [h1, h2]
    by_cases hc : st.queue.items.length ≥ st.queue.maxCapacity
    · simp [submitFeedback, enqueue, hc, Except.map]
    · simp [submitFeedback, enqueue, hc, hs, Except.map]
  · intro result pos st2 hok
    by_cases hc : st.queue.items.length ≥ st.queue.maxCapacity
    · simp [submitFeedback, enqueue, hc] at hok
    · simp [submitFeedback, enqueue, hc] at hok
      exact hok.1.symm

/-- The empty pipeline storage. -/
def initialPipeline : PipelineState :=
  { drivers := fun _ => none, feedbacks := [], alerts := [], nextRecordId := 0 }

/-- The orchestrator state at startup: fresh default queue, empty
storage. -/
def initialOrchState : OrchState :=
  { queue := mkQueue QueuedFeedbackItem "feedback"
    pipeline := initialPipeline
    processedCount := 0
    now := 0 }

/-- A submission carrying driver-directed feedback. -/
def reqA : SubmitFeedbackRequest :=
  { driverId := "d1", driverName := "Asha", feedbackText := "app was slow",
    rating := 3, userName := "u1", feedbackDate := "2026-10-10",
    driverFeedbackText := some "friendly driver", driverRating := some 4 }

/-- The same submission with a different general feedback text. -/
def reqB : SubmitFeedbackRequest :=
  { reqA with feedbackText := "totally different general feedback" }

/-- Claim C9 witness: the two concrete submissions above, which differ
only in feedbackText, produce the same sentiment result. -/
theorem submitFeedback_noninterference_witness :
    ((submitFeedback initialOrchState reqA).map (fun out => out.1) =
      (submitFeedback initialOrchState reqB).map (fun out => out.1)) ∧
    (∀ result pos st2,
      submitFeedback initialOrchState reqA = .ok (result, pos, st2) →
      result = analyze (reqA.driverFeedbackText.getD "") reqA.driverRating) :=
  submitFeedback_noninterference initialOrchState reqA reqB rfl rfl

/-- The driver record of the resilience scenario. -/
def goodDriver : DriverDocument :=
  { driverId := "good", name := "Gita", totalScore := 0, totalFeedback := 0,
    averageScore := 0, riskLevel := "LOW" }

/-- The driver store of the resilience scenario. -/
def scenarioDrivers : DriverStore :=
  fun id => if id = "good" then some goodDriver else none

/-- The storage state of the resilience scenario. -/
def scenarioPipeline : PipelineState :=
  { drivers := scenarioDrivers, feedbacks := [], alerts := [],
    nextRecordId := 0 }

/-- The submission whose persistence will fail. -/
def badRequest : SubmitFeedbackRequest :=
  { driverId := "bad", driverName := "Bela", feedbackText := "app crashed",
    rating := 1, userName := "u1", feedbackDate := "2026-10-10",
    driverFeedbackText := some "rude", driverRating := some 1 }

/-- The submission that must still go through after the failure. -/
def goodRequest : SubmitFeedbackRequest :=
  { driverId := "good", driverName := "Gita", feedbackText := "all fine",
    rating := 4, userName := "u2", feedbackDate := "2026-10-10",
    driverFeedbackText := some "friendly", driverRating := some 4 }

/-- The queued item whose persistence will fail. -/
def badQueuedItem : QueuedFeedbackItem :=
  { request := badRequest
    sentimentResult :=
      { score := 2, label := "negative", matchedWordCount := 1,
        matchedWords := ["-rude"] }
    enqueuedAt := 0 }

/-- The queued item that must still go through. -/
def goodQueuedItem : QueuedFeedbackItem :=
  { request := goodRequest
    sentimentResult :=
      { score := 4, label := "positive", matchedWordCount := 1,
        matchedWords := ["+friendly"] }
    enqueuedAt := 0 }

/-- The fault model of the scenario: the feedback-create call throws
exactly for the bad item. -/
def createFault : FaultModel :=
  { noFaults with
    failCreateFeedback := fun it => it.request.driverId = "bad" }

/-- The orchestrator state of the scenario: the bad item queued ahead
of the good one. -/
def scenarioStart : OrchState :=
  { queue := ⟨[badQueuedItem, goodQueuedItem], "feedback", 10000⟩
    pipeline := scenarioPipeline
    processedCount := 0
    now := 0 }

/-- The state after the first worker tick (which hits the fault). -/
def afterFirst : OrchState :=
  processNextItem createFault defaultAlertConfig scenarioStart

/-- The state after the second worker tick. -/
def afterSecond : OrchState :=
  processNextItem createFault defaultAlertConfig afterFirst

/-- The feedback record step 1 persists for the good item. -/
def goodRecordUnprocessed : FeedbackRecord :=
  { recordId := 0, driverId := "good", feedbackText := "all fine",
    userName := "u2", feedbackDate := "2026-10-10", sentimentScore := 4,
    sentimentLabel := "positive", matchedWords := ["+friendly"],
    processed := false }

/-- The same record after step 4 flips its processed flag. -/
def goodRecordProcessed : FeedbackRecord :=
  { goodRecordUnprocessed with processed := true }

/-- The good driver after the rolling-average update with score 4. -/
def updatedGoodDriver : DriverDocument :=
  { driverId := "good", name := "Gita", totalScore := 4, totalFeedback := 1,
    averageScore := 4, riskLevel := "LOW" }

/-- The driver store after that update. -/
def driversAfterUpdate : DriverStore :=
  fun id => if id = "good" then some updatedGoodDriver else scenarioDrivers id

/-- The storage state after step 1 on the good item. -/
def ps1val : PipelineState :=
  { drivers := scenarioDrivers, feedbacks := [goodRecordUnprocessed],
    alerts := [], nextRecordId := 1 }

/-- The storage state after step 2 on the good item. -/
def ps2val : PipelineState :=
  { drivers := driversAfterUpdate, feedbacks := [goodRecordUnprocessed],
    alerts := [], nextRecordId := 1 }

/-- The storage state after all four steps on the good item. -/
def psFinalVal : PipelineState :=
  { drivers := driversAfterUpdate, feedbacks := [goodRecordProcessed],
    alerts := [], nextRecordId := 1 }

/-- Claim C8: every error thrown inside the four processing steps is
caught, so processNextItem always returns normally with the dequeued
item consumed and never re-enqueued, under every fault pattern; an
empty queue is a no-op; and in the concrete scenario, the first tick
hits a persistence failure (nothing processed, the item lost) while the
second tick still fully processes the next item. -/
theorem processNextItem_error_isolation (fm : FaultModel)
    (cfg : AlertConfig) (st : OrchState) (item : QueuedFeedbackItem)
    (rest : List QueuedFeedbackItem)
    (h : st.queue.items = item :: rest) :
    ((processNextItem fm cfg st).queue.items = rest) ∧
    (∀ st2 : OrchState, st2.queue.items = [] →
      processNextItem fm cfg st2 = st2) ∧
    afterFirst.processedCount = 0 ∧
    afterFirst.queue.items = [goodQueuedItem] ∧
    afterFirst.pipeline.feedbacks = [] ∧
    afterSecond.processedCount = 1 ∧
    afterSecond.queue.items = [] ∧
    afterSecond.pipeline.feedbacks.map (fun rec => (rec.driverId, rec.processed)) =
      [("good", true)] := by
  have hA : afterFirst =
      { queue := ⟨[goodQueuedItem], "feedback", 10000⟩
        pipeline := scenarioPipeline
        processedCount := 0
        now := 0 } := by
    rw [afterFirst, scenarioStart]
    simp [processNextItem, InMemoryQueue.isEmpty, dequeue, runQueuedItem,
      saveFeedbackStep, createFault, noFaults, badQueuedItem, badRequest]
  have hupd : updateDriverScore scenarioDrivers "good" 4 =
      .ok (⟨"good", "Gita", 4, 1, 4, "LOW"⟩,
        fun id => if id = "good" then some ⟨"good", "Gita", 4, 1, 4, "LOW"⟩
          else scenarioDrivers id) := by
    have hsd : scenarioDrivers "good" = some goodDriver := by
      simp [scenarioDrivers]
    simp only [updateDriverScore, hsd]
    norm_num [goodDriver, round2, jsRound, classifyRiskLevel]
  have hsave : saveFeedbackStep createFault goodQueuedItem scenarioPipeline =
      .ok (0, ps1val) := by
    simp [saveFeedbackStep, createFault, noFaults, goodQueuedItem,
      goodRequest, scenarioPipeline, ps1val, goodRecordUnprocessed]
  have hhdf : hasDriverFeedback goodRequest = true := by
    simp [hasDriverFeedback, goodRequest]
  have hus : updateScoreStep createFault "good" 4 ps1val =
      .ok (updatedGoodDriver, ps2val) := by
    simp only [updateScoreStep, createFault, noFaults]
    rw [if_neg (by simp)]
    have hd : ps1val.drivers = scenarioDrivers := rfl
    rw [hd, hupd]
    rfl
  have hca : checkAlertStep createFault defaultAlertConfig "good" 4 0 ps2val =
      .ok ps2val := by
    simp only [checkAlertStep, createFault, noFaults]
    rw [if_neg (by simp)]
    rw [checkAndAlert, if_pos (by norm_num [defaultAlertConfig])]
  have hmk : markProcessedStep createFault 0 ps2val = .ok psFinalVal := by
    simp [markProcessedStep, createFault, noFaults, ps2val, psFinalVal,
      goodRecordUnprocessed, goodRecordProcessed]
  have hrun : runQueuedItem createFault defaultAlertConfig 0 goodQueuedItem
      scenarioPipeline = (psFinalVal, true) := by
    simp only [runQueuedItem, hsave]
    have hreq : goodQueuedItem.request = goodRequest := rfl
    have hscore : goodQueuedItem.sentimentResult.score = (4 : ℚ) := rfl
    rw [hreq, hhdf]
    have hid : goodRequest.driverId = "good" := rfl
    have havg : updatedGoodDriver.averageScore = (4 : ℚ) := rfl
    simp only [if_true, hid, hscore, hus, havg, hca, hmk]
  have hB : afterSecond =
      { queue := ⟨[], "feedback", 10000⟩
        pipeline := psFinalVal
        processedCount := 1
        now := 0 } := by
    rw [afterSecond, hA]
    simp [processNextItem, InMemoryQueue.isEmpty, dequeue, hrun]
  refine ⟨?_, ?_, by rw [hA] <;> rfl, by rw [hA] <;> rfl, by rw [hA] <;> rfl,
    by rw [hB] <;> rfl, by rw [hB] <;> rfl, by rw [hB] <;> rfl⟩
  · obtain ⟨⟨items, qn, cap⟩, ps, pc, tnow⟩ := st
    simp only at h
    subst h
    simp [processNextItem, InMemoryQueue.isEmpty, dequeue]
  · intro st2 h2
    obtain ⟨⟨items, qn, cap⟩, ps, pc, tnow⟩ := st2
    simp only at h2
    subst h2
    simp [processNextItem, InMemoryQueue.isEmpty]

/-- Claim C8 witness: the error-isolation theorem applied to the
concrete scenario state, whose queue holds the bad item ahead of the
good one. -/
theorem processNextItem_error_isolation_witness :
    (processNextItem createFault defaultAlertConfig scenarioStart).queue.items =
      [goodQueuedItem] ∧
    (∀ st2 : OrchState, st2.queue.items = [] →
      processNextItem createFault defaultAlertConfig st2 = st2) :=
  ⟨(processNextItem_error_isolation createFault defaultAlertConfig
      scenarioStart badQueuedItem [goodQueuedItem] rfl).1,
   (processNextItem_error_isolation createFault defaultAlertConfig
      scenarioStart badQueuedItem [goodQueuedItem] rfl).2.1⟩

end DriverSentiment
